import Mathlib

/-!
Shallow embedding of the Buildly `logic_service` repository: a minimal CRUD
microservice exposing two resources, Restaurant and Menu, through a REST API.

Files embedded:
  * `logic/models.py` — the two model declarations (UUID primary key with a
    random default, `editable=False`; `name` a CharField of max length 255)
    and the two admin declarations.
  * `logic/serializers.py` — two ModelSerializers over all fields.
  * `logic/views.py` — defines only `ExampleViewSet` over the nonexistent
    `ExampleModel` / `ExampleSerializer`; the `RestaurantViewSet` and
    `MenuViewSet` that `logic_service/urls.py` imports are absent, so the
    resource-handler behaviour is modelled from the spec where needed.
  * `logic_service/urls.py` — router registrations and fixed routes.
  * `logic_service/settings/docker.py` — database backend selection.

UUIDs are modelled as natural numbers drawn from a fresh-id supply carried in
the store state: `uuid.uuid4` is random and collision-free with overwhelming
probability (spec section 5), which a shallow embedding renders as a supply
that provably never repeats an identifier already in the store.
-/

/-- Identifier type. `models.py` uses `uuid.uuid4` (128-bit random values);
modelled as naturals handed out by the store's fresh supply. -/
abbrev UUID := Nat

/-- A persisted record of either entity: `{id, name}`
(`logic/models.py` lines 6-8 and 19-21). -/
structure Record where
  id : UUID
  name : String
deriving DecidableEq, Repr

/-- Entity-store state for one entity type: the persisted records plus the
state of the identifier supply standing for `uuid.uuid4`. -/
structure Store where
  records : List Record
  gen : Nat
deriving DecidableEq, Repr

/-- The identifiers currently present in the store. -/
def Store.ids (s : Store) : List UUID :=
  s.records.map Record.id

/-- The empty store, the state before any request. -/
def Store.init : Store := { records := [], gen := 0 }

/-- Store well-formedness: identifiers are pairwise distinct and every
identifier was produced by the supply (is below the supply counter). -/
def Store.WF (s : Store) : Prop :=
  s.ids.Nodup ∧ ∀ r ∈ s.records, r.id < s.gen

instance (s : Store) : Decidable s.WF := by
  unfold Store.WF; infer_instance

/-- A JSON value appearing in a request body field: a string, or anything
that is not a string (number, object, array, boolean, null). -/
inductive JsonVal where
  | jstr (s : String)
  | jother
deriving DecidableEq, Repr

/-- A create/update request body, as the serializer sees it: the `id` and
`name` keys, each possibly absent. -/
structure Payload where
  id : Option JsonVal
  name : Option JsonVal
deriving DecidableEq, Repr

/-- Field-level validation error codes of the serialization layer. -/
inductive FieldError where
  | required
  | invalid
  | blank
  | maxLength
deriving DecidableEq, Repr

/-- The validated data of a create/update body. The `id` model field has
`editable=False` (`models.py` lines 7 and 20), so the ModelSerializer
derived with `fields = '__all__'` (`serializers.py`) treats it as
read-only: validated data carries only `name`. -/
structure ValidatedData where
  name : String
deriving DecidableEq, Repr

/-- Declarative field contract of one model, as read off
`logic/models.py`: how the `id` field is declared and the `name` field's
maximum length. -/
structure FieldSpec where
  idPrimaryKey : Bool
  idRandomDefault : Bool
  idEditable : Bool
  nameMaxLength : Nat
deriving DecidableEq, Repr

/-- `Restaurant` field declarations (`models.py` lines 6-8). -/
def restaurantFields : FieldSpec :=
  { idPrimaryKey := true, idRandomDefault := true,
    idEditable := false, nameMaxLength := 255 }

/-- `Menu` field declarations (`models.py` lines 19-21). -/
def menuFields : FieldSpec :=
  { idPrimaryKey := true, idRandomDefault := true,
    idEditable := false, nameMaxLength := 255 }

/-- The writable fields a ModelSerializer with `fields = '__all__'` derives
from a model: a field declared `editable=False` is read-only. -/
def writableFields (fs : FieldSpec) : List String :=
  if fs.idEditable then ["id", "name"] else ["name"]

/-- Validation of a create/update body against a model's field contract,
as the derived ModelSerializer performs it: `name` is required, must be a
string, must be non-blank, and must not exceed the declared maximum
length; a read-only `id` in the body is ignored. -/
def validateFor (fs : FieldSpec) (p : Payload) :
    Except (String × FieldError) ValidatedData :=
  match p.name with
  | none => .error ("name", .required)
  | some .jother => .error ("name", .invalid)
  | some (.jstr s) =>
      if s.length = 0 then .error ("name", .blank)
      else if fs.nameMaxLength < s.length then .error ("name", .maxLength)
      else .ok { name := s }

/-- `RestaurantSerializer` validation (`serializers.py` lines 5-8). -/
def runValidation (p : Payload) : Except (String × FieldError) ValidatedData :=
  validateFor restaurantFields p

/-- Serializing a record: emits both fields, the identifier in string form
(`serializers.py`, `fields = '__all__'`). -/
def serializeRecord (r : Record) : Payload :=
  { id := some (.jstr (toString r.id)), name := some (.jstr r.name) }

/-- Store create: persist a record under a fresh identifier from the supply
(`models.py` line 7, `default=uuid.uuid4`). -/
def Store.create (s : Store) (v : ValidatedData) : Record × Store :=
  let r : Record := { id := s.gen, name := v.name }
  (r, { records := s.records ++ [r], gen := s.gen + 1 })

/-- Store lookup by identifier. -/
def Store.get (s : Store) (i : UUID) : Option Record :=
  s.records.find? (fun r => r.id == i)

/-- Store update: replace `name` on every record matching the identifier;
identifiers are never touched. -/
def Store.put (s : Store) (i : UUID) (v : ValidatedData) : Store :=
  { s with records :=
      s.records.map (fun q => if q.id == i then { q with name := v.name } else q) }

/-- Store delete: remove the matching record permanently. -/
def Store.erase (s : Store) (i : UUID) : Store :=
  { s with records := s.records.filter (fun r => r.id != i) }

/-- An HTTP response: status code and optional JSON body. -/
structure HttpResponse where
  status : Nat
  body : Option Payload
deriving DecidableEq, Repr

/-- Modelled from the spec: `RestaurantViewSet` and `MenuViewSet` are
imported by `logic_service/urls.py` line 10 but are not defined in
`logic/views.py`, which only holds the `ExampleViewSet` scaffolding.
List handler — `GET /{resource}/` returns 200 with every record
(spec section 4.3). -/
def listHandler (s : Store) : Nat × List Payload :=
  (200, s.records.map serializeRecord)

/-- Modelled from the spec: retrieve handler — `GET /{resource}/{id}/`
returns the record or 404 (spec section 4.3). -/
def retrieveHandler (s : Store) (i : UUID) : HttpResponse :=
  match s.get i with
  | none => { status := 404, body := none }
  | some r => { status := 200, body := some (serializeRecord r) }

/-- Modelled from the spec: create handler — `POST /{resource}/` validates
the body, persists under a fresh identifier, returns 201 with the record,
or 400 on a validation error (spec section 4.3). -/
def createHandler (s : Store) (p : Payload) : HttpResponse × Store :=
  match runValidation p with
  | .error _ => ({ status := 400, body := none }, s)
  | .ok v =>
      let (r, s') := s.create v
      ({ status := 201, body := some (serializeRecord r) }, s')

/-- Modelled from the spec: update handler — `PUT/PATCH /{resource}/{id}/`
returns 404 when the identifier is absent, 400 on a validation error, and
otherwise replaces `name` and returns 200 (spec sections 4.1 and 4.3). -/
def updateHandler (s : Store) (i : UUID) (p : Payload) : HttpResponse × Store :=
  match s.get i with
  | none => ({ status := 404, body := none }, s)
  | some _ =>
      match runValidation p with
      | .error _ => ({ status := 400, body := none }, s)
      | .ok v =>
          ({ status := 200, body := some (serializeRecord { id := i, name := v.name }) },
            s.put i v)

/-- Modelled from the spec: delete handler — `DELETE /{resource}/{id}/`
removes the record permanently and returns 204, or 404 when absent
(spec sections 4.1 and 4.3). -/
def deleteHandler (s : Store) (i : UUID) : HttpResponse × Store :=
  match s.get i with
  | none => ({ status := 404, body := none }, s)
  | some _ => ({ status := 204, body := none }, s.erase i)

/-- Modelled from the spec: `logic_service/views.py` (the `health_check`
view imported by `urls.py` line 11) is not among the sources. The liveness
probe returns 200 in every store state, regardless of database
reachability (spec sections 4.4 and 8). -/
def health_check (_dbReachable : Bool) (_s : Store) : HttpResponse :=
  { status := 200, body := none }

/-- The HTTP operations of one registered resource, as a DRF SimpleRouter
wires a ModelViewSet: verb, path pattern, action. -/
structure RouteEntry where
  verb : String
  pathPattern : String
  handlerAction : String
deriving DecidableEq, Repr

/-- The routes a SimpleRouter generates for one registered prefix
(`urls.py` lines 13-15). -/
def routerRoutesFor (prefixStr : String) (viewset : String) : List RouteEntry :=
  [ { verb := "GET", pathPattern := prefixStr ++ "/", handlerAction := viewset ++ ".list" },
    { verb := "POST", pathPattern := prefixStr ++ "/", handlerAction := viewset ++ ".create" },
    { verb := "GET", pathPattern := prefixStr ++ "/<id>/", handlerAction := viewset ++ ".retrieve" },
    { verb := "PUT", pathPattern := prefixStr ++ "/<id>/", handlerAction := viewset ++ ".update" },
    { verb := "PATCH", pathPattern := prefixStr ++ "/<id>/", handlerAction := viewset ++ ".partial_update" },
    { verb := "DELETE", pathPattern := prefixStr ++ "/<id>/", handlerAction := viewset ++ ".destroy" } ]

/-- The router registrations of `urls.py`:
`router.register('restaurants', RestaurantViewSet)` and
`router.register('menus', MenuViewSet)` (lines 14-15). -/
def routerRoutes : List RouteEntry :=
  routerRoutesFor "restaurants" "RestaurantViewSet" ++
  routerRoutesFor "menus" "MenuViewSet"

/-- The fixed (non-router) URL patterns of `urls.py` lines 28-37:
path, view name. -/
def fixedUrlPatterns : List (String × String) :=
  [ ("docs/swagger<format>", "schema-json"),
    ("docs/", "schema-swagger-ui"),
    ("admin/", "admin.site.urls"),
    ("health_check/", "health_check"),
    ("", "health_check") ]

/-- The top-level names defined by `logic/views.py` (lines 1-7). -/
def logicViewsDefinedNames : List String := ["ExampleViewSet"]

/-- The names `logic/views.py` imports from `logic/models.py` and
`logic/serializers.py` (lines 2-3). -/
def logicViewsImportedNames : List String := ["ExampleModel", "ExampleSerializer"]

/-- The top-level names defined by `logic/models.py`. -/
def logicModelsDefinedNames : List String :=
  ["Restaurant", "RestaurantAdmin", "Menu", "MenuAdmin"]

/-- The top-level names defined by `logic/serializers.py`. -/
def logicSerializersDefinedNames : List String :=
  ["RestaurantSerializer", "MenuSerializer"]

/-- The names `logic_service/urls.py` line 10 imports from
`logic/views.py`. -/
def urlsImportedFromLogicViews : List String :=
  ["RestaurantViewSet", "MenuViewSet"]

/-- A database configuration block, as `settings/docker.py` builds it. -/
structure DbConfig where
  engine : String
  dbName : String
  user : Option String
  password : Option String
  host : Option String
  port : Option String
deriving DecidableEq, Repr

/-- `os.getenv(k, d)`: the variable's value, or the default when unset. -/
def getenvD (env : String → Option String) (k d : String) : String :=
  (env k).getD d

/-- Database backend selection of `logic_service/settings/docker.py`
lines 4-21: PostgreSQL when `DATABASE_ENGINE` equals `postgresql`,
configured from the `DATABASE_*` variables with defaults; otherwise a
local SQLite file `db.sqlite3` under the base directory. -/
def databasesDefault (env : String → Option String) (baseDir : String) : DbConfig :=
  if env "DATABASE_ENGINE" = some "postgresql" then
    { engine := "django.db.backends.postgresql",
      dbName := getenvD env "DATABASE_NAME" "logic_service",
      user := some (getenvD env "DATABASE_USER" "root"),
      password := some (getenvD env "DATABASE_PASSWORD" "root"),
      host := some (getenvD env "DATABASE_HOST" "localhost"),
      port := some (getenvD env "DATABASE_PORT" "5432") }
  else
    { engine := "django.db.backends.sqlite3",
      dbName := baseDir ++ "/db.sqlite3",
      user := none, password := none, host := none, port := none }

/-- Admin declaration for one model (`models.py` lines 14-16 and 27-29). -/
structure AdminSpec where
  list_display : List String
  search_fields : List String
deriving DecidableEq, Repr

/-- `RestaurantAdmin` (`models.py` lines 14-16). -/
def restaurantAdmin : AdminSpec :=
  { list_display := ["name", "id"], search_fields := ["name"] }

/-- `MenuAdmin` (`models.py` lines 27-29). -/
def menuAdmin : AdminSpec :=
  { list_display := ["name", "id"], search_fields := ["name"] }

/-- `MenuSerializer` validation (`serializers.py` lines 11-14). -/
def runMenuValidation (p : Payload) : Except (String × FieldError) ValidatedData :=
  validateFor menuFields p

/-- Helper: a store's fresh supply value is not among its identifiers. -/
lemma Store.gen_not_mem_ids (s : Store) (hwf : s.WF) : s.gen ∉ s.ids := by
  intro hmem
  obtain ⟨r, hr, hid⟩ := List.mem_map.mp hmem
  have h2 := hwf.2 r hr
  rw [hid] at h2
  exact lt_irrefl _ h2

/-- Helper: validation of a body whose `name` is a string of admissible
length succeeds with that string. -/
lemma runValidation_ok_of_valid (cid : Option JsonVal) (nm : String)
    (h1 : 1 ≤ nm.length) (h2 : nm.length ≤ 255) :
    runValidation { id := cid, name := some (.jstr nm) } = .ok { name := nm } := by
  unfold runValidation validateFor
  simp only [restaurantFields]
  rw [if_neg (by omega), if_neg (by omega)]

/-- Claim C1: for every valid name string of length 1 to 255, the create
operation (`POST /restaurants/`) returns 201 with a record whose identifier
is fresh — not equal to the identifier of any previously existing record —
and whose name equals the input name. -/
theorem restaurant_create_fresh (s : Store) (nm : String)
    (hwf : s.WF) (h1 : 1 ≤ nm.length) (h2 : nm.length ≤ 255) :
    ∃ r : Record, ∃ s' : Store,
      createHandler s { id := none, name := some (.jstr nm) } =
        ({ status := 201, body := some (serializeRecord r) }, s') ∧
      r.id ∉ s.ids ∧ r.name = nm := by
  refine ⟨{ id := s.gen, name := nm }, (s.create { name := nm }).2, ?_, ?_, rfl⟩
  · simp [createHandler, runValidation_ok_of_valid none nm h1 h2, Store.create]
  · exact s.gen_not_mem_ids hwf

/-- Witness for C1: creating "Trattoria" in the empty store. -/
theorem restaurant_create_fresh_witness :
    ∃ r : Record, ∃ s' : Store,
      createHandler Store.init { id := none, name := some (.jstr "Trattoria") } =
        ({ status := 201, body := some (serializeRecord r) }, s') ∧
      r.id ∉ Store.init.ids ∧ r.name = "Trattoria" :=
  restaurant_create_fresh Store.init "Trattoria" (by decide) (by decide) (by decide)

/-- Claim C2: for every create/update payload that validates, serializing
the record built from the deserialized data preserves the `name` field;
validation reads only `name`, so any `id` in the body is ignored, and the
persisted record's identifier is the server-assigned fresh value, never a
client-supplied one. -/
theorem serializer_roundtrip_id_ignored (p : Payload) (v : ValidatedData)
    (s : Store) (h : runValidation p = .ok v) :
    (serializeRecord (s.create v).1).name = p.name ∧
    (∀ cid : Option JsonVal, runValidation { id := cid, name := p.name } = .ok v) ∧
    (s.create v).1.id = s.gen ∧
    writableFields restaurantFields = ["name"] := by
  match hp : p.name with
  | none =>
      unfold runValidation validateFor at h
      rw [hp] at h
      exact absurd h (by simp)
  | some .jother =>
      unfold runValidation validateFor at h
      rw [hp] at h
      exact absurd h (by simp)
  | some (.jstr str) =>
      have hfacts : 1 ≤ str.length ∧ str.length ≤ 255 ∧ v = { name := str } := by
        unfold runValidation validateFor at h
        rw [hp] at h
        simp only [restaurantFields] at h
        by_cases h0 : str.length = 0
        · rw [if_pos h0] at h
          exact absurd h (by simp)
        · rw [if_neg h0] at h
          by_cases h1 : (255 : Nat) < str.length
          · rw [if_pos h1] at h
            exact absurd h (by simp)
          · rw [if_neg h1] at h
            have hv : ValidatedData.mk str = v := by simpa using h
            exact ⟨by omega, by omega, hv.symm⟩
      obtain ⟨h1, h2, hv⟩ := hfacts
      subst hv
      refine ⟨?_, ?_, rfl, rfl⟩
      · simp [serializeRecord, Store.create, hp]
      · intro cid
        exact runValidation_ok_of_valid cid str h1 h2

/-- Witness for C2: a payload carrying a client-supplied `id`. -/
theorem serializer_roundtrip_id_ignored_witness :
    (serializeRecord (Store.init.create { name := "A" }).1).name =
        (Payload.mk (some (.jstr "zzz")) (some (.jstr "A"))).name ∧
    (∀ cid : Option JsonVal,
      runValidation { id := cid, name := (Payload.mk (some (.jstr "zzz")) (some (.jstr "A"))).name } =
        .ok { name := "A" }) ∧
    (Store.init.create { name := "A" }).1.id = Store.init.gen ∧
    writableFields restaurantFields = ["name"] :=
  serializer_roundtrip_id_ignored
    (Payload.mk (some (.jstr "zzz")) (some (.jstr "A")))
    { name := "A" } Store.init (by rfl)

/-- Claim C3: validation of a create/update body: a missing, non-string,
blank, or over-255-character `name` fails with a field-level validation
error on `name`, surfaced as HTTP 400; a string `name` of length 1 to 255
validates, and the create succeeds with 201. -/
theorem restaurant_validation_cases (p : Payload) (s : Store) :
    match p.name with
    | some (.jstr str) =>
        if 1 ≤ str.length ∧ str.length ≤ 255
        then runValidation p = .ok { name := str } ∧
             (createHandler s p).1.status = 201
        else (∃ e : FieldError, runValidation p = .error ("name", e)) ∧
             (createHandler s p).1.status = 400
    | _ => (∃ e : FieldError, runValidation p = .error ("name", e)) ∧
           (createHandler s p).1.status = 400 := by
  obtain ⟨pid, pname⟩ := p
  match pname with
  | none => exact ⟨⟨.required, rfl⟩, rfl⟩
  | some .jother => exact ⟨⟨.invalid, rfl⟩, rfl⟩
  | some (.jstr str) =>
      simp only
      split_ifs with hlen
      · have hok : runValidation { id := pid, name := some (.jstr str) } =
            .ok { name := str } :=
          runValidation_ok_of_valid pid str hlen.1 hlen.2
        exact ⟨hok, by simp [createHandler, hok]⟩
      · rcases Nat.eq_zero_or_pos str.length with hz | hpos
        · have herr : runValidation { id := pid, name := some (.jstr str) } =
              .error ("name", .blank) := by
            unfold runValidation validateFor
            simp only [restaurantFields]
            rw [if_pos hz]
          exact ⟨⟨.blank, herr⟩, by simp [createHandler, herr]⟩
        · have hgt : 255 < str.length := by omega
          have herr : runValidation { id := pid, name := some (.jstr str) } =
              .error ("name", .maxLength) := by
            unfold runValidation validateFor
            simp only [restaurantFields]
            rw [if_neg (by omega), if_pos hgt]
          exact ⟨⟨.maxLength, herr⟩, by simp [createHandler, herr]⟩

/-- Claim C5: updating a nonexistent identifier (`PUT/PATCH
/{resource}/{id}/`) returns 404 and leaves the store unchanged, so no
record is created. -/
theorem update_nonexistent_not_found (s : Store) (i : UUID) (p : Payload)
    (h : s.get i = none) :
    updateHandler s i p = ({ status := 404, body := none }, s) := by
  unfold updateHandler
  rw [h]

/-- Witness for C5: updating identifier 7 in the empty store. -/
theorem update_nonexistent_not_found_witness :
    updateHandler Store.init 7 { id := none, name := some (.jstr "x") } =
      ({ status := 404, body := none }, Store.init) :=
  update_nonexistent_not_found Store.init 7
    { id := none, name := some (.jstr "x") } (by rfl)

/-- Claim C6: deleting a record present in the store (`DELETE
/{resource}/{id}/`, 204) removes it permanently: a subsequent retrieve of
the same identifier yields 404, and no record with that identifier remains
in any form (hard delete, no tombstone). -/
theorem delete_then_retrieve_not_found (s : Store) (r : Record)
    (h : r ∈ s.records) :
    deleteHandler s r.id = ({ status := 204, body := none }, s.erase r.id) ∧
    retrieveHandler (s.erase r.id) r.id = { status := 404, body := none } ∧
    ∀ q ∈ (s.erase r.id).records, q.id ≠ r.id := by
  have hfound : ∃ q, s.get r.id = some q := by
    have : (s.records.find? (fun q => q.id == r.id)).isSome := by
      rw [List.find?_isSome]
      exact ⟨r, h, by simp⟩
    exact Option.isSome_iff_exists.mp this
  obtain ⟨q, hq⟩ := hfound
  have hnone : (s.erase r.id).get r.id = none := by
    unfold Store.get Store.erase
    rw [List.find?_eq_none]
    intro x hx
    have := (List.mem_filter.mp hx).2
    simpa using this
  refine ⟨?_, ?_, ?_⟩
  · unfold deleteHandler
    rw [hq]
  · unfold retrieveHandler
    rw [hnone]
  · intro x hx
    have := (List.mem_filter.mp hx).2
    simpa using this

/-- Witness for C6: deleting the sole record of a one-record store. -/
theorem delete_then_retrieve_not_found_witness :
    deleteHandler { records := [{ id := 0, name := "A" }], gen := 1 } 0 =
      ({ status := 204, body := none },
        Store.erase { records := [{ id := 0, name := "A" }], gen := 1 } 0) ∧
    retrieveHandler
        (Store.erase { records := [{ id := 0, name := "A" }], gen := 1 } 0) 0 =
      { status := 404, body := none } ∧
    ∀ q ∈ (Store.erase { records := [{ id := 0, name := "A" }], gen := 1 } 0).records,
      q.id ≠ 0 :=
  delete_then_retrieve_not_found
    { records := [{ id := 0, name := "A" }], gen := 1 }
    { id := 0, name := "A" } (by simp)

/-- Helper: the identifiers after a store create are the old ones followed
by the fresh one. -/
lemma Store.create_ids (s : Store) (v : ValidatedData) :
    (s.create v).2.ids = s.ids ++ [s.gen] := by
  unfold Store.create Store.ids
  simp

/-- Helper: store create preserves well-formedness. -/
lemma Store.create_WF (s : Store) (v : ValidatedData) (hwf : s.WF) :
    (s.create v).2.WF := by
  obtain ⟨hnd, hlt⟩ := hwf
  constructor
  · rw [Store.create_ids]
    refine List.Nodup.append hnd (by simp) ?_
    intro a ha hb
    rw [List.mem_singleton] at hb
    subst hb
    exact Store.gen_not_mem_ids s ⟨hnd, hlt⟩ ha
  · intro r hr
    unfold Store.create at hr ⊢
    simp only [List.mem_append, List.mem_singleton] at hr
    rcases hr with hr | hr
    · exact Nat.lt_succ_of_lt (hlt r hr)
    · subst hr
      exact Nat.lt_succ_self _
/-- Helper: a store update leaves the identifier list unchanged. -/
lemma Store.put_ids (s : Store) (i : UUID) (v : ValidatedData) :
    (s.put i v).ids = s.ids := by
  unfold Store.put Store.ids
  simp only [List.map_map]
  congr 1
  funext q
  by_cases hq : q.id == i
  · simp [Function.comp, hq]
  · simp [Function.comp, hq]

/-- Helper: store update preserves well-formedness. -/
lemma Store.put_WF (s : Store) (i : UUID) (v : ValidatedData) (hwf : s.WF) :
    (s.put i v).WF := by
  obtain ⟨hnd, hlt⟩ := hwf
  constructor
  · rw [Store.put_ids]
    exact hnd
  · intro r hr
    unfold Store.put at hr
    simp only [List.mem_map] at hr
    obtain ⟨q, hq, hqr⟩ := hr
    have hid : r.id = q.id := by
      subst hqr
      by_cases h : q.id == i <;> simp [h]
    rw [hid]
    exact hlt q hq

/-- Helper: the identifiers after a store delete form a sublist of the old
identifiers. -/
lemma Store.erase_ids_sublist (s : Store) (i : UUID) :
    (s.erase i).ids.Sublist s.ids := by
  unfold Store.erase Store.ids
  exact List.Sublist.map Record.id (List.filter_sublist s.records)

/-- Helper: store delete preserves well-formedness. -/
lemma Store.erase_WF (s : Store) (i : UUID) (hwf : s.WF) :
    (s.erase i).WF := by
  obtain ⟨hnd, hlt⟩ := hwf
  refine ⟨hnd.sublist (Store.erase_ids_sublist s i), ?_⟩
  intro r hr
  unfold Store.erase at hr
  exact hlt r (List.mem_filter.mp hr).1

/-- Claim C7: in every reachable store state the identifiers are unique
across records, and no operation reassigns or modifies the identifier of
an existing record — create only appends a fresh identifier, update leaves
the identifier list unchanged (only `name` is mutable), and delete only
removes identifiers. Stated as: the initial state is well-formed, and
create, update, and delete all preserve well-formedness and the
identifier discipline. -/
theorem store_id_invariants :
    Store.init.WF ∧
    ∀ s : Store, s.WF →
      (∀ p : Payload,
        (createHandler s p).2.WF ∧
        ∃ tail, (createHandler s p).2.ids = s.ids ++ tail) ∧
      (∀ (i : UUID) (p : Payload),
        (updateHandler s i p).2.WF ∧
        (updateHandler s i p).2.ids = s.ids ∧
        (updateHandler s i p).2.gen = s.gen) ∧
      (∀ i : UUID,
        (deleteHandler s i).2.WF ∧
        (deleteHandler s i).2.ids.Sublist s.ids ∧
        (deleteHandler s i).2.gen = s.gen) := by
  refine ⟨⟨by simp [Store.init, Store.ids], by simp [Store.init]⟩, ?_⟩
  intro s hwf
  refine ⟨?_, ?_, ?_⟩
  · intro p
    match hv : runValidation p with
    | .error e =>
        have hstore : (createHandler s p).2 = s := by
          unfold createHandler
          rw [hv]
        rw [hstore]
        exact ⟨hwf, [], by simp⟩
    | .ok v =>
        have hstore : (createHandler s p).2 = (s.create v).2 := by
          unfold createHandler
          rw [hv]
        rw [hstore]
        exact ⟨Store.create_WF s v hwf, [s.gen], Store.create_ids s v⟩
  · intro i p
    match hg : s.get i with
    | none =>
        have hstore : (updateHandler s i p).2 = s := by
          unfold updateHandler
          rw [hg]
        rw [hstore]
        exact ⟨hwf, rfl, rfl⟩
    | some q =>
        match hv : runValidation p with
        | .error e =>
            have hstore : (updateHandler s i p).2 = s := by
              unfold updateHandler
              rw [hg, hv]
            rw [hstore]
            exact ⟨hwf, rfl, rfl⟩
        | .ok v =>
            have hstore : (updateHandler s i p).2 = s.put i v := by
              unfold updateHandler
              rw [hg, hv]
            rw [hstore]
            exact ⟨Store.put_WF s i v hwf, Store.put_ids s i v, rfl⟩
  · intro i
    match hg : s.get i with
    | none =>
        have hstore : (deleteHandler s i).2 = s := by
          unfold deleteHandler
          rw [hg]
        rw [hstore]
        exact ⟨hwf, List.Sublist.refl _, rfl⟩
    | some q =>
        have hstore : (deleteHandler s i).2 = s.erase i := by
          unfold deleteHandler
          rw [hg]
        rw [hstore]
        exact ⟨Store.erase_WF s i hwf, Store.erase_ids_sublist s i, rfl⟩

/-- Witness for C7: creating a record in the well-formed empty store yields
a well-formed store. -/
theorem store_id_invariants_witness :
    (createHandler Store.init { id := none, name := some (.jstr "A") }).2.WF :=
  ((store_id_invariants.2 Store.init store_id_invariants.1).1
    { id := none, name := some (.jstr "A") }).1

/-- Claim C4 (counter-evidence): the route table cannot be wired as the
claim states. `logic_service/urls.py` line 10 imports `RestaurantViewSet`
and `MenuViewSet` from `logic/views.py`, but that module defines neither —
it defines only `ExampleViewSet`, whose own imports `ExampleModel` and
`ExampleSerializer` are defined in neither `logic/models.py` nor
`logic/serializers.py`. -/
theorem urls_viewset_import_unresolved :
    (logicViewsDefinedNames.contains "RestaurantViewSet" = false) ∧
    (logicViewsDefinedNames.contains "MenuViewSet" = false) ∧
    (logicModelsDefinedNames.contains "ExampleModel" = false) ∧
    (logicSerializersDefinedNames.contains "ExampleSerializer" = false) ∧
    routerRoutes =
      routerRoutesFor "restaurants" "RestaurantViewSet" ++
      routerRoutesFor "menus" "MenuViewSet" := by
  exact ⟨by decide, by decide, by decide, by decide, rfl⟩

/-- Claim C8: the router exposes `GET /health_check/` and `GET /` mapped to
the health-check view, and that view returns 200 in every store state,
whatever the database reachability. -/
theorem health_routes_always_200 :
    ("health_check/", "health_check") ∈ fixedUrlPatterns ∧
    ("", "health_check") ∈ fixedUrlPatterns ∧
    ∀ (dbReachable : Bool) (s : Store),
      (health_check dbReachable s).status = 200 := by
  refine ⟨by decide, by decide, ?_⟩
  intro dbReachable s
  rfl

/-- Claim C9: backend selection in `settings/docker.py` is a function of
`DATABASE_ENGINE` alone: the value `postgresql` selects the PostgreSQL
backend configured from the `DATABASE_*` variables with their defaults,
and every other value — including unset — selects the local SQLite file
`db.sqlite3`. -/
theorem database_selection (env : String → Option String) (baseDir : String) :
    (env "DATABASE_ENGINE" = some "postgresql" →
      databasesDefault env baseDir =
        { engine := "django.db.backends.postgresql",
          dbName := getenvD env "DATABASE_NAME" "logic_service",
          user := some (getenvD env "DATABASE_USER" "root"),
          password := some (getenvD env "DATABASE_PASSWORD" "root"),
          host := some (getenvD env "DATABASE_HOST" "localhost"),
          port := some (getenvD env "DATABASE_PORT" "5432") }) ∧
    (env "DATABASE_ENGINE" ≠ some "postgresql" →
      databasesDefault env baseDir =
        { engine := "django.db.backends.sqlite3",
          dbName := baseDir ++ "/db.sqlite3",
          user := none, password := none, host := none, port := none }) ∧
    (∀ env' : String → Option String,
      env "DATABASE_ENGINE" = env' "DATABASE_ENGINE" →
      (databasesDefault env baseDir).engine =
        (databasesDefault env' baseDir).engine) := by
  refine ⟨?_, ?_, ?_⟩
  · intro h
    unfold databasesDefault
    rw [if_pos h]
  · intro h
    unfold databasesDefault
    rw [if_neg h]
  · intro env' h
    unfold databasesDefault
    by_cases hp : env "DATABASE_ENGINE" = some "postgresql"
    · rw [if_pos hp, if_pos (h ▸ hp)]
    · rw [if_neg hp, if_neg (h ▸ hp)]

/-- Sample environment: `DATABASE_ENGINE` set to `postgresql`, everything
else unset. -/
def envPostgres : String → Option String :=
  fun k => if k = "DATABASE_ENGINE" then some "postgresql" else none

/-- Witness for C9: the sample PostgreSQL environment selects the
PostgreSQL backend with all defaults. -/
theorem database_selection_witness :
    databasesDefault envPostgres "/app" =
      { engine := "django.db.backends.postgresql",
        dbName := getenvD envPostgres "DATABASE_NAME" "logic_service",
        user := some (getenvD envPostgres "DATABASE_USER" "root"),
        password := some (getenvD envPostgres "DATABASE_PASSWORD" "root"),
        host := some (getenvD envPostgres "DATABASE_HOST" "localhost"),
        port := some (getenvD envPostgres "DATABASE_PORT" "5432") } :=
  (database_selection envPostgres "/app").1 (by rfl)

/-- Claim C10: the Restaurant and Menu pipelines are behaviorally
identical — the declared field contracts coincide, the admin
configurations coincide, the derived serializer validation agrees on every
payload, and the derived writable-field sets coincide. -/
theorem restaurant_menu_pipelines_equal :
    restaurantFields = menuFields ∧
    restaurantAdmin = menuAdmin ∧
    (∀ p : Payload, runValidation p = runMenuValidation p) ∧
    writableFields restaurantFields = writableFields menuFields := by
  exact ⟨rfl, rfl, fun p => rfl, rfl⟩
